import Mathlib

/-! Verification of the Namecheap DNS scripts (add_subdomain.py and
check_old_records.py): the record reconciliation step, the retrying API
transport, the XML result checks, and host-record extraction on both the
write/add path and the read-only inspection path. -/

namespace NamecheapScripts

/-- A DNS host record as the scripts build it from one XML host element.
Each field holds the value of the corresponding attribute; an absent
attribute yields none (MXPref is read with default "", so it is always a
string; TTL is a string for the same reason on the add path and an
optional string on the check path, so the common type is Option). -/
structure Record where
  hostName : Option String
  recordType : Option String
  address : Option String
  mxPref : String
  ttl : Option String
deriving DecidableEq, Repr

/-- Lines 276-282 of add_subdomain.py: the fresh A record for the
requested subdomain, with empty MXPref and the configured default TTL. -/
def new_record (subdomain ip_address default_ttl : String) : Record :=
  { hostName := some subdomain
    recordType := some "A"
    address := some ip_address
    mxPref := ""
    ttl := some default_ttl }

/-- Lines 270-283 of add_subdomain.py: keep every existing record that does
not match (HostName == subdomain and RecordType == "A"), then append the
fresh A record. -/
def reconcile (subdomain ip_address default_ttl : String)
    (existing_records : List Record) : List Record :=
  (existing_records.filter fun r =>
      !(r.hostName == some subdomain && r.recordType == some "A"))
    ++ [new_record subdomain ip_address default_ttl]

/-- C1: for every input record list, the reconciled record set contains
exactly one record whose HostName equals the desired subdomain and whose
RecordType is "A", whether 0, 1 or more such records existed before. -/
theorem reconcile_single_A (subdomain ip_address default_ttl : String)
    (existing_records : List Record) :
    ((reconcile subdomain ip_address default_ttl existing_records).countP
      fun r => r.hostName == some subdomain && r.recordType == some "A") = 1 := by
  unfold reconcile
  rw [List.countP_append]
  have h0 : ((existing_records.filter fun r =>
        !(r.hostName == some subdomain && r.recordType == some "A")).countP
      fun r => r.hostName == some subdomain && r.recordType == some "A") = 0 := by
    rw [List.countP_eq_zero]
    intro a ha
    have hmem := List.of_mem_filter ha
    simp only [Bool.not_eq_true'] at hmem
    simp [hmem]
  rw [h0]
  simp [new_record, List.countP_cons]

/-- C4: the reconciled output is exactly the kept records (those not
matching the desired subdomain with type "A") in their original order,
followed by the one new record as the last element; on empty input the
output is exactly the singleton of the new record. -/
theorem reconcile_order (subdomain ip_address default_ttl : String) :
    reconcile subdomain ip_address default_ttl []
        = [new_record subdomain ip_address default_ttl]
    ∧ ∀ existing_records : List Record,
        reconcile subdomain ip_address default_ttl existing_records
          = (existing_records.filter fun r =>
                !(r.hostName == some subdomain && r.recordType == some "A"))
              ++ [new_record subdomain ip_address default_ttl]
        ∧ (reconcile subdomain ip_address default_ttl existing_records).getLast?
            = some (new_record subdomain ip_address default_ttl) := by
  refine ⟨rfl, fun existing_records => ⟨rfl, ?_⟩⟩
  unfold reconcile
  rw [List.getLast?_concat]

/-- C5: reconciliation is idempotent: applying the step twice with the same
subdomain, address and TTL yields the same record list (hence the same set
of record tuples) as applying it once. -/
theorem reconcile_idempotent (subdomain ip_address default_ttl : String)
    (existing_records : List Record) :
    reconcile subdomain ip_address default_ttl
        (reconcile subdomain ip_address default_ttl existing_records)
      = reconcile subdomain ip_address default_ttl existing_records := by
  unfold reconcile new_record
  simp [List.filter_append, List.filter_filter]

/-- C9: HostName removal is case-sensitive exact string equality: an A
record whose host name differs from the desired subdomain only in letter
case is kept unchanged, so the output contains at least two A records. -/
theorem reconcile_case_sensitive (subdomain ip_address default_ttl : String)
    (existing_records : List Record) (r : Record)
    (hmem : r ∈ existing_records) (hA : r.recordType = some "A")
    (hname : ∃ n, r.hostName = some n ∧ n ≠ subdomain
        ∧ n.data.map Char.toLower = subdomain.data.map Char.toLower) :
    r ∈ reconcile subdomain ip_address default_ttl existing_records
    ∧ 2 ≤ ((reconcile subdomain ip_address default_ttl existing_records).countP
        fun x => x.recordType == some "A") := by
  obtain ⟨n, hn, hne, -⟩ := hname
  have hkeep : (!(r.hostName == some subdomain && r.recordType == some "A")) = true := by
    simp [hn, hne]
  have hfil : r ∈ existing_records.filter fun x =>
      !(x.hostName == some subdomain && x.recordType == some "A") :=
    List.mem_filter.mpr ⟨hmem, hkeep⟩
  constructor
  · exact List.mem_append.mpr (Or.inl hfil)
  · unfold reconcile
    rw [List.countP_append]
    have h1 : 0 < ((existing_records.filter fun x =>
        !(x.hostName == some subdomain && x.recordType == some "A")).countP
        fun x => x.recordType == some "A") := by
      rw [List.countP_pos_iff]
      exact ⟨r, hfil, by simp [hA]⟩
    have h2 : (([new_record subdomain ip_address default_ttl]).countP
        fun x => x.recordType == some "A") = 1 := by
      simp [new_record, List.countP_cons]
    omega

/-- Witness for reconcile_case_sensitive: an existing A record named "DEV"
survives reconciliation for subdomain "dev", leaving two A records. -/
theorem reconcile_case_sensitive_witness :
    (⟨some "DEV", some "A", some "9.9.9.9", "", some "1800"⟩ : Record)
        ∈ reconcile "dev" "1.2.3.4" "1800"
            [⟨some "DEV", some "A", some "9.9.9.9", "", some "1800"⟩]
    ∧ 2 ≤ ((reconcile "dev" "1.2.3.4" "1800"
          [⟨some "DEV", some "A", some "9.9.9.9", "", some "1800"⟩]).countP
        fun x => x.recordType == some "A") :=
  reconcile_case_sensitive "dev" "1.2.3.4" "1800"
    [⟨some "DEV", some "A", some "9.9.9.9", "", some "1800"⟩]
    ⟨some "DEV", some "A", some "9.9.9.9", "", some "1800"⟩
    (List.mem_singleton.mpr rfl) rfl
    ⟨"DEV", rfl, by decide, by decide⟩

/-- An HTTP response as the transport sees it: a status code and a body. -/
structure Response where
  statusCode : Nat
  text : String
deriving DecidableEq, Repr

/-- Outcome of call_namecheap_api_with_retries: the returned response, or
the exception "Failed after {max_retries} retries." carrying max_retries,
or the unreachable "Unexpected exit from retry loop." exception. -/
inductive CallResult where
  | ok : Response → CallResult
  | failedAfter : Nat → CallResult
  | unexpectedExit : CallResult
deriving DecidableEq, Repr

/-- One attempt is accepted exactly when the GET raised no request
exception and the response status code is 200 (lines 98-109 of
add_subdomain.py; lines 69-77 of check_old_records.py). -/
def accepted : Except String Response → Option Response
  | Except.ok response => if response.statusCode == 200 then some response else none
  | Except.error _ => none

/-- Body of the retry loop (lines 97-119 of add_subdomain.py): iterate the
remaining attempt numbers, return on a 200 response, keep retrying on an
exception or a non-200 status while attempts remain, and raise after the
last attempt. The second component counts the attempts actually made. -/
def retry_go (outcomes : Nat → Except String Response) (max_retries : Nat) :
    List Nat → Nat → CallResult × Nat
  | [], made => (CallResult.unexpectedExit, made)
  | attempt :: rest, made =>
    match outcomes attempt with
    | Except.ok response =>
        if response.statusCode == 200 then (CallResult.ok response, made + 1)
        else if attempt < max_retries then retry_go outcomes max_retries rest (made + 1)
        else (CallResult.failedAfter max_retries, made + 1)
    | Except.error _ =>
        if attempt < max_retries then retry_go outcomes max_retries rest (made + 1)
        else (CallResult.failedAfter max_retries, made + 1)

/-- call_namecheap_api_with_retries: run the loop over attempt numbers
1..max_retries; the environment is abstracted as the map from attempt
number to that attempt's outcome (exception or response). -/
def call_namecheap_api_with_retries (outcomes : Nat → Except String Response)
    (max_retries : Nat) : CallResult × Nat :=
  retry_go outcomes max_retries (List.range' 1 max_retries) 0

theorem retry_go_cons (outcomes : Nat → Except String Response)
    (max_retries attempt : Nat) (rest : List Nat) (made : Nat) :
    retry_go outcomes max_retries (attempt :: rest) made =
      match accepted (outcomes attempt) with
      | some response => (CallResult.ok response, made + 1)
      | none =>
          if attempt < max_retries then retry_go outcomes max_retries rest (made + 1)
          else (CallResult.failedAfter max_retries, made + 1) := by
  rcases h : outcomes attempt with e | response
  · simp [retry_go, accepted, h]
  · by_cases hc : response.statusCode == 200 <;> simp [retry_go, accepted, h, hc]

/-- C3 (amended): the client accepts an attempt exactly when no exception
occurred and the status is literally 200 (so even 2xx codes such as 201 are
retried); any exception or non-200 status is retried, with one shared
attempt counter across both failure kinds and budget 3. -/
theorem call_retry_behaviour (outcomes : Nat → Except String Response) :
    (∀ response, accepted (outcomes 1) = some response →
        call_namecheap_api_with_retries outcomes 3 = (CallResult.ok response, 1))
    ∧ (∀ response, accepted (outcomes 1) = none →
        accepted (outcomes 2) = some response →
        call_namecheap_api_with_retries outcomes 3 = (CallResult.ok response, 2))
    ∧ (∀ response, accepted (outcomes 1) = none → accepted (outcomes 2) = none →
        accepted (outcomes 3) = some response →
        call_namecheap_api_with_retries outcomes 3 = (CallResult.ok response, 3))
    ∧ (accepted (outcomes 1) = none → accepted (outcomes 2) = none →
        accepted (outcomes 3) = none →
        call_namecheap_api_with_retries outcomes 3 = (CallResult.failedAfter 3, 3)) := by
  have hr : List.range' 1 3 = [1, 2, 3] := rfl
  refine ⟨?_, ?_, ?_, ?_⟩
  · intro response h1
    simp [call_namecheap_api_with_retries, hr, retry_go_cons, h1]
  · intro response h1 h2
    simp [call_namecheap_api_with_retries, hr, retry_go_cons, h1, h2]
  · intro response h1 h2 h3
    simp [call_namecheap_api_with_retries, hr, retry_go_cons, h1, h2, h3]
  · intro h1 h2 h3
    simp [call_namecheap_api_with_retries, hr, retry_go_cons, h1, h2, h3]

/-- C3 counterexample: a stub always answering HTTP 201 — a 2xx status —
is not accepted as the claim states; the client retries it like a failure
and exhausts all three attempts instead of returning the response. -/
theorem call_retry_2xx_counterexample :
    call_namecheap_api_with_retries (fun _ => Except.ok ⟨201, "Created"⟩) 3
        = (CallResult.failedAfter 3, 3)
    ∧ call_namecheap_api_with_retries (fun _ => Except.ok ⟨201, "Created"⟩) 3
        ≠ (CallResult.ok ⟨201, "Created"⟩, 1) := by
  constructor
  · rfl
  · decide

/-- Witness for call_retry_behaviour at a stub whose first attempt times
out and whose second attempt returns 200. -/
theorem call_retry_behaviour_witness :
    call_namecheap_api_with_retries
        (fun n => if n == 1 then Except.error "timeout"
                  else Except.ok ⟨200, "body"⟩) 3
      = (CallResult.ok ⟨200, "body"⟩, 2) :=
  (call_retry_behaviour
    (fun n => if n == 1 then Except.error "timeout"
              else Except.ok ⟨200, "body"⟩)).2.1 ⟨200, "body"⟩ rfl rfl

/-- C6: against a stub that fails every attempt, exactly 3 attempts are
made and the raised failure carries 3, the number of attempts; against a
stub failing twice then accepted on the third attempt, 3 attempts are made
and that successful response is returned. -/
theorem call_retry_exhaustion (outcomes : Nat → Except String Response) :
    ((∀ k, accepted (outcomes k) = none) →
        call_namecheap_api_with_retries outcomes 3 = (CallResult.failedAfter 3, 3))
    ∧ (∀ response, accepted (outcomes 1) = none → accepted (outcomes 2) = none →
        accepted (outcomes 3) = some response →
        call_namecheap_api_with_retries outcomes 3 = (CallResult.ok response, 3)) := by
  have hr : List.range' 1 3 = [1, 2, 3] := rfl
  constructor
  · intro h
    simp [call_namecheap_api_with_retries, hr, retry_go_cons, h 1, h 2, h 3]
  · intro response h1 h2 h3
    simp [call_namecheap_api_with_retries, hr, retry_go_cons, h1, h2, h3]

/-- Witness for call_retry_exhaustion at a stub that always raises a
request exception. -/
theorem call_retry_exhaustion_witness :
    call_namecheap_api_with_retries (fun _ => Except.error "connection reset") 3
      = (CallResult.failedAfter 3, 3) :=
  (call_retry_exhaustion (fun _ => Except.error "connection reset")).1
    (fun _ => rfl)

/-- An XML element after strip_namespaces: a plain tag, an attribute map,
optional text content, and child elements. -/
inductive Element where
  | mk (tag : String) (attrib : List (String × String)) (text : Option String)
      (children : List Element)

def Element.tag : Element → String
  | .mk t _ _ _ => t

def Element.attrib : Element → List (String × String)
  | .mk _ a _ _ => a

def Element.text : Element → Option String
  | .mk _ _ tx _ => tx

def Element.children : Element → List Element
  | .mk _ _ _ c => c

/-- host.get(k): attribute lookup returning None when absent. -/
def Element.get (e : Element) (k : String) : Option String :=
  (e.attrib.find? fun p => p.1 == k).map fun p => p.2

/-- host.get(k, d): attribute lookup with a default. -/
def Element.getD (e : Element) (k d : String) : String :=
  match e.get k with
  | some v => v
  | none => d

mutual

/-- All proper descendants of an element in document order (what the
ElementTree path prefix ".//" ranges over). -/
def Element.descendants : Element → List Element
  | .mk _ _ _ children => descendants_list children

def descendants_list : List Element → List Element
  | [] => []
  | c :: rest => c :: (Element.descendants c ++ descendants_list rest)

end

/-- root.findall(".//" + t): every descendant whose tag is t, in document
order. -/
def findall_tag (root : Element) (t : String) : List Element :=
  root.descendants.filter fun e => e.tag == t

/-- root.find(".//" + t): the first descendant whose tag is t, if any. -/
def find_tag (root : Element) (t : String) : Option Element :=
  (findall_tag root t).head?

/-- Python truthiness of an ElementTree Element: an element with no child
elements is falsy, one with children is truthy. -/
def Element.truthy (e : Element) : Bool :=
  !e.children.isEmpty

/-- Python truthiness of an optional string: None and "" are falsy, any
non-empty string is truthy. -/
def py_truthy_str : Option String → Bool
  | none => false
  | some s => !(s == "")

/-- Lines 199-202 of add_subdomain.py: set_dns_records does not raise
exactly when `(not result) or (result.get("IsSuccess") != "true")` is
false, where `not result` is Python truthiness of the found element (or of
None when the node is absent). -/
def set_hosts_check_passes (root : Element) : Bool :=
  match find_tag root "DomainDNSSetHostsResult" with
  | none => false
  | some result => result.truthy && (result.get "IsSuccess" == some "true")

/-- Follows the spec's words for extractSetResult: locate the set-hosts
result node and return whether its IsSuccess attribute equals the literal
string "true"; absence of the node, or any other value, is failure. -/
def extractSetResult_spec (root : Element) : Bool :=
  match find_tag root "DomainDNSSetHostsResult" with
  | none => false
  | some result => result.get "IsSuccess" == some "true"

/-- The registrar's standard setHosts success response: the result node is
present, carries IsSuccess="true", and has no child elements. -/
def success_push_response : Element :=
  Element.mk "ApiResponse" [("Status", "OK")] none
    [Element.mk "CommandResponse" [("Type", "namecheap.domains.dns.setHosts")] none
      [Element.mk "DomainDNSSetHostsResult"
        [("Domain", "example.com"), ("IsSuccess", "true")] none []]]

/-- C2 (code bug): on the registrar's standard success response the result
node is present with IsSuccess="true", so the claim and the spec-level
extractSetResult report success — but the code raises, because the
childless result element is falsy in Python and `not result` fires. -/
theorem set_hosts_check_bug :
    (find_tag success_push_response "DomainDNSSetHostsResult").isSome = true
    ∧ ((find_tag success_push_response "DomainDNSSetHostsResult").bind
        fun r => r.get "IsSuccess") = some "true"
    ∧ extractSetResult_spec success_push_response = true
    ∧ set_hosts_check_passes success_push_response = false := by
  refine ⟨rfl, rfl, rfl, rfl⟩

/-- Lines 152-154 of add_subdomain.py: the write/add fetch path raises on
the mere presence of any Error element. -/
def add_path_error_raises (root : Element) : Bool :=
  !(findall_tag root "Error").isEmpty

/-- Lines 120-122 of check_old_records.py: the read-only inspection path
raises only when Error elements exist and the first one's text is truthy
(present and non-empty). -/
def check_path_error_raises (root : Element) : Bool :=
  match findall_tag root "Error" with
  | [] => false
  | e :: _ => py_truthy_str e.text

/-- C10: an Error element whose text is empty or absent does not fail the
read-only inspection path, which raises only on a first Error element with
non-empty text, whereas the write path raises on mere presence. -/
theorem error_gate_paths (root e : Element) (rest : List Element)
    (h : findall_tag root "Error" = e :: rest) :
    (e.text = none ∨ e.text = some "" → check_path_error_raises root = false)
    ∧ add_path_error_raises root = true
    ∧ (∀ s, e.text = some s → s ≠ "" → check_path_error_raises root = true) := by
  refine ⟨?_, ?_, ?_⟩
  · intro htext
    rcases htext with htext | htext <;>
      simp [check_path_error_raises, h, py_truthy_str, htext]
  · simp [add_path_error_raises, h]
  · intro s hs hne
    simp [check_path_error_raises, h, py_truthy_str, hs, hne]

/-- A getHosts response whose only Error element is empty (no text). -/
def empty_error_response : Element :=
  Element.mk "ApiResponse" [("Status", "OK")] none
    [Element.mk "Errors" [] none [Element.mk "Error" [] none []],
     Element.mk "CommandResponse" [] none
       [Element.mk "DomainDNSGetHostsResult" [("Domain", "example.com")] none []]]

/-- Witness for error_gate_paths on a response carrying one textless Error
element: the inspection path passes, the write path raises. -/
theorem error_gate_paths_witness :
    check_path_error_raises empty_error_response = false
    ∧ add_path_error_raises empty_error_response = true :=
  ⟨(error_gate_paths empty_error_response (Element.mk "Error" [] none []) []
      rfl).1 (Or.inl rfl),
   (error_gate_paths empty_error_response (Element.mk "Error" [] none []) []
      rfl).2.1⟩

/-- Host-record extraction on the write/add path (lines 158-165 of
add_subdomain.py): a missing TTL attribute is replaced by the configured
default TTL. -/
def extract_host_add (default_ttl : String) (host : Element) : Record :=
  { hostName := host.get "Name"
    recordType := host.get "Type"
    address := host.get "Address"
    mxPref := host.getD "MXPref" ""
    ttl := some (host.getD "TTL" default_ttl) }

/-- Host-record extraction on the read-only inspection path (lines 127-133
of check_old_records.py): the TTL is left exactly as returned, none when
the attribute is absent. -/
def extract_host_check (host : Element) : Record :=
  { hostName := host.get "Name"
    recordType := host.get "Type"
    address := host.get "Address"
    mxPref := host.getD "MXPref" ""
    ttl := host.get "TTL" }

/-- C8: when a host element carries no TTL attribute, the add path
substitutes the configured default TTL and the inspection path leaves the
TTL absent; every other field is extracted identically on both paths. -/
theorem ttl_default_only_on_add_path (default_ttl : String) (host : Element)
    (h : host.get "TTL" = none) :
    (extract_host_add default_ttl host).ttl = some default_ttl
    ∧ (extract_host_check host).ttl = none
    ∧ (extract_host_add default_ttl host).hostName = (extract_host_check host).hostName
    ∧ (extract_host_add default_ttl host).recordType = (extract_host_check host).recordType
    ∧ (extract_host_add default_ttl host).address = (extract_host_check host).address
    ∧ (extract_host_add default_ttl host).mxPref = (extract_host_check host).mxPref := by
  refine ⟨?_, h, rfl, rfl, rfl, rfl⟩
  simp [extract_host_add, Element.getD, h]

/-- Witness for ttl_default_only_on_add_path on a host element listing
only Name, Type and Address attributes. -/
theorem ttl_default_only_on_add_path_witness :
    (extract_host_add "1800"
        (Element.mk "host"
          [("Name", "dev"), ("Type", "A"), ("Address", "1.2.3.4")] none [])).ttl
      = some "1800"
    ∧ (extract_host_check
        (Element.mk "host"
          [("Name", "dev"), ("Type", "A"), ("Address", "1.2.3.4")] none [])).ttl
      = none :=
  ⟨(ttl_default_only_on_add_path "1800"
      (Element.mk "host"
        [("Name", "dev"), ("Type", "A"), ("Address", "1.2.3.4")] none []) rfl).1,
   (ttl_default_only_on_add_path "1800"
      (Element.mk "host"
        [("Name", "dev"), ("Type", "A"), ("Address", "1.2.3.4")] none []) rfl).2.1⟩

/-- Python str() of an optional string, as f-strings render it: None
becomes "None". -/
def py_str : Option String → String
  | none => "None"
  | some s => s

/-- The host elements selected by ".//DomainDNSGetHostsResult/host": the
host-tagged children of every DomainDNSGetHostsResult descendant. -/
def get_hosts_elements (root : Element) : List Element :=
  (findall_tag root "DomainDNSGetHostsResult").flatMap
    fun r => r.children.filter fun c => c.tag == "host"

/-- get_dns_records of add_subdomain.py (lines 130-167): the transport call
(whose exceptions propagate), XML parsing (abstracted as the parse oracle;
a parse failure is ET.fromstring raising), the presence-based Error check,
and host extraction with the default TTL. -/
def get_dns_records (default_ttl : String) (call : CallResult × Nat)
    (parse : String → Option Element) : Except String (List Record) :=
  match call.1 with
  | CallResult.failedAfter n =>
      Except.error ("Failed after " ++ toString n ++ " retries.")
  | CallResult.unexpectedExit =>
      Except.error "Unexpected exit from retry loop."
  | CallResult.ok response =>
    match parse response.text with
    | none => Except.error "XML parse error"
    | some root =>
      match findall_tag root "Error" with
      | [] => Except.ok ((get_hosts_elements root).map (extract_host_add default_ttl))
      | e :: _ => Except.error ("API Error: " ++ py_str e.text)

/-- set_dns_records of add_subdomain.py (lines 169-202): the transport call
on the serialized host list, XML parsing, and the IsSuccess result check;
the hosts argument only shapes the request, whose outcome the call oracle
already fixes. -/
def set_dns_records (hosts : List Record) (call : CallResult × Nat)
    (parse : String → Option Element) : Except String Unit :=
  match call.1 with
  | CallResult.failedAfter n =>
      Except.error ("Failed after " ++ toString n ++ " retries.")
  | CallResult.unexpectedExit =>
      Except.error "Unexpected exit from retry loop."
  | CallResult.ok response =>
    match parse response.text with
    | none => Except.error "XML parse error"
    | some root =>
      if set_hosts_check_passes root then Except.ok ()
      else Except.error ("Failed to update DNS records. Response: " ++ response.text)

/-- How a run of main ends: sys.exit with a status, or falling off the end
after the success log line. -/
inductive MainOutcome where
  | exited : Nat → MainOutcome
  | finished : MainOutcome
deriving DecidableEq, Repr

/-- Steps 4-6 of main in add_subdomain.py (lines 259-296), after the user
confirms: fetch the existing records, reconcile, then push. The second
component records whether set_dns_records was ever invoked. -/
def main_after_confirm (default_ttl subdomain ip_address : String)
    (fetch : CallResult × Nat) (fetch_parse : String → Option Element)
    (push : CallResult × Nat) (push_parse : String → Option Element) :
    MainOutcome × Bool :=
  match get_dns_records default_ttl fetch fetch_parse with
  | Except.error _ => (MainOutcome.exited 1, false)
  | Except.ok existing_records =>
    let updated_records := reconcile subdomain ip_address default_ttl existing_records
    match set_dns_records updated_records push push_parse with
    | Except.error _ => (MainOutcome.exited 1, true)
    | Except.ok _ => (MainOutcome.finished, true)

/-- C7: whenever the fetch phase fails — exhausted retries, unparsable XML,
or an Error element in the payload all surface as an error from
get_dns_records — the run exits with status 1 and the push operation is
never invoked. -/
theorem fetch_failure_blocks_push (default_ttl subdomain ip_address : String)
    (fetch : CallResult × Nat) (fetch_parse : String → Option Element)
    (push : CallResult × Nat) (push_parse : String → Option Element)
    (msg : String)
    (h : get_dns_records default_ttl fetch fetch_parse = Except.error msg) :
    main_after_confirm default_ttl subdomain ip_address fetch fetch_parse
        push push_parse
      = (MainOutcome.exited 1, false) := by
  unfold main_after_confirm
  rw [h]

/-- Witness for fetch_failure_blocks_push on a fetch whose transport
exhausted its retries. -/
theorem fetch_failure_blocks_push_witness :
    main_after_confirm "1800" "dev" "1.2.3.4" (CallResult.failedAfter 3, 3)
        (fun _ => none) (CallResult.ok ⟨200, ""⟩, 1) (fun _ => none)
      = (MainOutcome.exited 1, false) :=
  fetch_failure_blocks_push "1800" "dev" "1.2.3.4" (CallResult.failedAfter 3, 3)
    (fun _ => none) (CallResult.ok ⟨200, ""⟩, 1) (fun _ => none)
    "Failed after 3 retries." rfl

end NamecheapScripts
